import Mathlib

/-!
Verification of the Green End SFTP server protocol engine
(`sftpserver.c`, `status.c`) against its specification.

The development shallow-embeds the protocol engine: wire output is a list
of `WireItem` tokens (one per `send_*` call), server state is the triple of
globals mutated by the engine (`protocol`, `reverse_symlink`, `workqueue`),
and each C function becomes a Lean function over those.  Parts of the
repository that the excerpt does not contain (the versioned dispatch
tables of v3.c..v6.c, `parse.c`, `utils.c`'s `do_read`, libc's `strerror`
and the header constants) are either taken as parameters of the model or
modelled from the spec, and are marked as such below.
-/

namespace Sftp

/-! ## Protocol constants

Packet-type and status constants from `sftp.h` (not in the excerpt); the
values are the standard ones of the SFTP drafts, and the spec's glossary
fixes INIT=1, VERSION=2, STATUS=101, `SSH_FX_FAILURE`=4,
`SSH_FX_OP_UNSUPPORTED`=8, `SSH_FX_FILE_ALREADY_EXISTS`=11. -/

def SSH_FXP_INIT : Nat := 1
def SSH_FXP_VERSION : Nat := 2
def SSH_FXP_STATUS : Nat := 101

def SSH_FX_OK : Nat := 0
def SSH_FX_EOF : Nat := 1
def SSH_FX_NO_SUCH_FILE : Nat := 2
def SSH_FX_PERMISSION_DENIED : Nat := 3
def SSH_FX_FAILURE : Nat := 4
def SSH_FX_BAD_MESSAGE : Nat := 5
def SSH_FX_NO_CONNECTION : Nat := 6
def SSH_FX_CONNECTION_LOST : Nat := 7
def SSH_FX_OP_UNSUPPORTED : Nat := 8
def SSH_FX_INVALID_HANDLE : Nat := 9
def SSH_FX_NO_SUCH_PATH : Nat := 10
def SSH_FX_FILE_ALREADY_EXISTS : Nat := 11
def SSH_FX_WRITE_PROTECT : Nat := 12
def SSH_FX_NO_MEDIA : Nat := 13
def SSH_FX_NO_SPACE_ON_FILESYSTEM : Nat := 14
def SSH_FX_QUOTA_EXCEEDED : Nat := 15
def SSH_FX_UNKNOWN_PRINCIPAL : Nat := 16
def SSH_FX_LOCK_CONFLICT : Nat := 17
def SSH_FX_DIR_NOT_EMPTY : Nat := 18
def SSH_FX_NOT_A_DIRECTORY : Nat := 19
def SSH_FX_INVALID_FILENAME : Nat := 20
def SSH_FX_LINK_LOOP : Nat := 21
def SSH_FX_CANNOT_DELETE : Nat := 22
def SSH_FX_INVALID_PARAMETER : Nat := 23
def SSH_FX_FILE_IS_A_DIRECTORY : Nat := 24
def SSH_FX_BYTE_RANGE_LOCK_CONFLICT : Nat := 25
def SSH_FX_BYTE_RANGE_LOCK_REFUSED : Nat := 26
def SSH_FX_DELETE_PENDING : Nat := 27
def SSH_FX_FILE_CORRUPT : Nat := 28
def SSH_FX_OWNER_INVALID : Nat := 29
def SSH_FX_GROUP_INVALID : Nat := 30
def SSH_FX_NO_MATCHING_BYTE_RANGE_LOCK : Nat := 31

/-- The `(uint32_t)-1` sentinel that `send_status` interprets as "consult
errno" (`status.c` line 51). -/
def UINT32_MINUS_ONE : Nat := 4294967295

/-! Attribute-mask and open-flag constants used inside the `supported` /
`supported2` blocks of the VERSION packet (`sftp.h`, standard draft
values; no claim depends on the particular numbers). -/

def SSH_FILEXFER_ATTR_SIZE : Nat := 0x00000001
def SSH_FILEXFER_ATTR_PERMISSIONS : Nat := 0x00000004
def SSH_FILEXFER_ATTR_ACCESSTIME : Nat := 0x00000008
def SSH_FILEXFER_ATTR_MODIFYTIME : Nat := 0x00000020
def SSH_FILEXFER_ATTR_OWNERGROUP : Nat := 0x00000080
def SSH_FILEXFER_ATTR_SUBSECOND_TIMES : Nat := 0x00000100

def SSH_FXF_ACCESS_DISPOSITION : Nat := 0x00000007
def SSH_FXF_APPEND_DATA : Nat := 0x00000008
def SSH_FXF_APPEND_DATA_ATOMIC : Nat := 0x00000010
def SSH_FXF_TEXT_MODE : Nat := 0x00000020
def SSH_FXF_NOFOLLOW : Nat := 0x00000400
def SSH_FXF_DELETE_ON_CLOSE : Nat := 0x00000800

/-- Attribute mask sent in both the `supported` and `supported2` blocks
(`sftpserver.c` lines 174-179 and 204-209). -/
def initAttrMask : Nat :=
  SSH_FILEXFER_ATTR_SIZE
    ||| SSH_FILEXFER_ATTR_PERMISSIONS
    ||| SSH_FILEXFER_ATTR_ACCESSTIME
    ||| SSH_FILEXFER_ATTR_MODIFYTIME
    ||| SSH_FILEXFER_ATTR_OWNERGROUP
    ||| SSH_FILEXFER_ATTR_SUBSECOND_TIMES

/-- Open flags sent in the v5 `supported` block (`sftpserver.c` lines 181-184). -/
def initOpenFlagsV5 : Nat :=
  SSH_FXF_ACCESS_DISPOSITION
    ||| SSH_FXF_APPEND_DATA
    ||| SSH_FXF_APPEND_DATA_ATOMIC
    ||| SSH_FXF_TEXT_MODE

/-- Open flags sent in the v6 `supported2` block (`sftpserver.c` lines 216-221). -/
def initOpenFlagsV6 : Nat :=
  SSH_FXF_ACCESS_DISPOSITION
    ||| SSH_FXF_APPEND_DATA
    ||| SSH_FXF_APPEND_DATA_ATOMIC
    ||| SSH_FXF_TEXT_MODE
    ||| SSH_FXF_NOFOLLOW
    ||| SSH_FXF_DELETE_ON_CLOSE

/-! ## Wire model

Each `send_*` call of the C encoder appends one token to the response
being assembled; a `send_sub_begin`/`send_sub_end` pair wraps the tokens
sent in between into a `sub` node (the back-patched length prefix is
implicit in the nesting).  A complete response packet
(`send_begin` .. `send_end`) is a `List WireItem`. -/

inductive WireItem : Type where
  | u8 (v : Nat)
  | u16 (v : Nat)
  | u32 (v : Nat)
  | u64 (v : Nat)
  | str (s : String)
  | sub (items : List WireItem)

/-! ## status.c -/

/-- Translation of `status_to_string` (`status.c` lines 10-46).  The C
`switch` is on the `SSH_FX_*` constants; the numeric patterns here are
those constants' values (0 = `SSH_FX_OK` .. 31 =
`SSH_FX_NO_MATCHING_BYTE_RANGE_LOCK`, in the same order as the C
cases). -/
def status_to_string (status : Nat) : String :=
  match status with
  | 0 => "OK"
  | 1 => "end of file"
  | 2 => "file does not exist"
  | 3 => "permission denied"
  | 4 => "operation failed"
  | 5 => "badly encoded SFTP packet"
  | 6 => "no connection"
  | 7 => "connection lost"
  | 8 => "operation not supported"
  | 9 => "invalid handle"
  | 10 => "path does not exist or is invalid"
  | 11 => "file already exists"
  | 12 => "file is on read-only medium"
  | 13 => "no medium in drive"
  | 14 => "no space on filesystem"
  | 15 => "quota exceeded"
  | 16 => "unknown principal"
  | 17 => "file is locked"
  | 18 => "directory is not empty"
  | 19 => "file is not a directory"
  | 20 => "invalid filename"
  | 21 => "too many symbolic links"
  | 22 => "file cannot be deleted"
  | 23 => "invalid parameter"
  | 24 => "file is a directory"
  | 25 => "byte range is locked"
  | 26 => "cannot lock byte range"
  | 27 => "file deletion pending"
  | 28 => "file is corrupt"
  | 29 => "invalid owner"
  | 30 => "invalid group"
  | 31 => "no such lock"
  | _ => "unknown status"

/-- OS error codes as an abstract type: one constructor per errno value
named in `errnotab` (`status.c` lines 74-93), `noerror` for the errno
value 0, and `other` for every remaining (platform-specific) value. -/
inductive OSErr : Type where
  | noerror
  | EPERM | EACCES | ENOENT | EIO | ENOSPC | ENOTDIR | EISDIR
  | EEXIST | EROFS | ELOOP | ENAMETOOLONG | ENOTEMPTY | EDQUOT
  | other (n : Nat)
deriving DecidableEq, Repr

/-- Translation of `errnotab` (`status.c` lines 74-93), minus its final
`{ -1, SSH_FX_FAILURE }` sentinel entry, which the lookup function below
realises as its fall-through result. -/
def errnotab : List (OSErr × Nat) :=
  [ (OSErr.noerror, SSH_FX_OK),
    (OSErr.EPERM, SSH_FX_PERMISSION_DENIED),
    (OSErr.EACCES, SSH_FX_PERMISSION_DENIED),
    (OSErr.ENOENT, SSH_FX_NO_SUCH_FILE),
    (OSErr.EIO, SSH_FX_FILE_CORRUPT),
    (OSErr.ENOSPC, SSH_FX_NO_SPACE_ON_FILESYSTEM),
    (OSErr.ENOTDIR, SSH_FX_NOT_A_DIRECTORY),
    (OSErr.EISDIR, SSH_FX_FILE_IS_A_DIRECTORY),
    (OSErr.EEXIST, SSH_FX_FILE_ALREADY_EXISTS),
    (OSErr.EROFS, SSH_FX_WRITE_PROTECT),
    (OSErr.ELOOP, SSH_FX_LINK_LOOP),
    (OSErr.ENAMETOOLONG, SSH_FX_INVALID_FILENAME),
    (OSErr.ENOTEMPTY, SSH_FX_DIR_NOT_EMPTY),
    (OSErr.EDQUOT, SSH_FX_QUOTA_EXCEEDED) ]

/-- The linear scan of `send_errno_status` (`status.c` lines 99-102):
walk the table until the entry matches, falling through to the sentinel
entry's `SSH_FX_FAILURE` when none does. -/
def errnotab_scan : List (OSErr × Nat) → OSErr → Nat
  | [], _ => SSH_FX_FAILURE
  | (ev, sv) :: rest, e => if ev = e then sv else errnotab_scan rest e

/-- Status an OS error code is translated to. -/
def errnoStatus (e : OSErr) : Nat := errnotab_scan errnotab e

/-- Body of `send_status` after the errno-sentinel test (`status.c` lines
59-71): fill in a default message from `status_to_string` when the caller
passed none, then coerce out-of-range statuses to `SSH_FX_FAILURE`, then
emit the STATUS packet. -/
def send_status_body (maxstatus : Nat) (id : Nat) (status : Nat)
    (msg : Option String) : List WireItem :=
  let msg := match msg with
    | none => status_to_string status
    | some m => m
  let status := if status > maxstatus then SSH_FX_FAILURE else status
  [ WireItem.u8 SSH_FXP_STATUS,
    WireItem.u32 id,
    WireItem.u32 status,
    WireItem.str msg,
    WireItem.str "en" ]

/-- Translation of `send_errno_status` (`status.c` lines 95-104):
translate the current errno via the table scan and send the resulting
status with `strerror(errno)` as the message.  `strerror` is libc's and
is a parameter of the model. -/
def send_errno_status (maxstatus : Nat) (strerror : OSErr → String)
    (id : Nat) (errno : OSErr) : List WireItem :=
  send_status_body maxstatus id (errnoStatus errno) (some (strerror errno))

/-- Translation of `send_status` (`status.c` lines 48-72).  `maxstatus`
is the active protocol table's `maxstatus` field, `errno` the value of
the errno global when the handler returned. -/
def send_status (maxstatus : Nat) (strerror : OSErr → String) (errno : OSErr)
    (id : Nat) (status : Nat) (msg : Option String) : List WireItem :=
  if status = UINT32_MINUS_ONE then
    send_errno_status maxstatus strerror id errno
  else
    send_status_body maxstatus id status msg

/-! ## Protocol tables and server state (`sftpserver.c`) -/

/-- Identity of the active protocol table: the five `struct sftpprotocol`
values the global `protocol` pointer can reference. -/
inductive PVer : Type where
  | preinit | v3 | v4 | v5 | v6
deriving DecidableEq, Repr

/-- The fields of `struct sftpprotocol` the protocol engine reads:
the sorted command-type array (handlers are resolved by the dispatcher
model), the advertised version, `maxstatus`, and the extension-name
list sent inside the `supported`/`supported2` blocks. -/
structure sftpprotocol : Type where
  commands : List Nat
  version : Nat
  maxstatus : Nat
  extensions : List String

/-- Translation of `sftppreinit` (`sftpserver.c` lines 270-287): the only
command is `SSH_FXP_INIT`, the version field is 3, `maxstatus` is
`SSH_FX_OP_UNSUPPORTED`, and there are no extensions. -/
def sftppreinit : sftpprotocol :=
  { commands := [SSH_FXP_INIT],
    version := 3,
    maxstatus := SSH_FX_OP_UNSUPPORTED,
    extensions := [] }

/-- Result of a command handler: `HANDLER_RESPONDED` (the handler already
emitted a complete response) or a status code for `send_status`. -/
inductive HResult : Type where
  | responded
  | status (code : Nat)
deriving DecidableEq, Repr

/-- The globals of `sftpserver.c` that the protocol engine mutates:
the active-table pointer `protocol` (line 77), the `reverse_symlink`
flag, and whether the worker pool `workqueue` has been created
(`workqueue != 0`). -/
structure ServerState : Type where
  protocol : PVer
  reverse_symlink : Bool
  workqueue : Bool
deriving DecidableEq, Repr

/-- Initial state of a connection: `protocol = &sftppreinit`
(`sftpserver.c` line 77), no worker pool, reverse-symlink flag clear. -/
def initialState : ServerState :=
  { protocol := PVer.preinit, reverse_symlink := false, workqueue := false }

/-- Connection-independent parameters of the model: the four versioned
dispatch tables (defined in v3.c..v6.c, outside the excerpt), the
`VERSION` preprocessor string, the `REVERSE_SYMLINK` compile-time flag,
libc's `strerror`, the ambient errno value, and an oracle giving the
outcome of the non-INIT command handlers (defined outside the excerpt;
they do not touch the engine's globals). -/
structure ServerConfig : Type where
  v3tab : sftpprotocol
  v4tab : sftpprotocol
  v5tab : sftpprotocol
  v6tab : sftpprotocol
  versionString : String
  reverseCompiled : Bool
  strerror : OSErr → String
  errno : OSErr
  handler : PVer → Nat → HResult

/-- The table the global `protocol` pointer designates. -/
def ServerConfig.table (cfg : ServerConfig) : PVer → sftpprotocol
  | PVer.preinit => sftppreinit
  | PVer.v3 => cfg.v3tab
  | PVer.v4 => cfg.v4tab
  | PVer.v5 => cfg.v5tab
  | PVer.v6 => cfg.v6tab

/-- Modelled from the spec: `parse_uint32` of parse.c (not in the
excerpt).  Per spec section 4.1, integers are big-endian and decoders
fail with `SSH_FX_BAD_MESSAGE` when the remaining buffer is too short;
on success the cursor advances past the four bytes. -/
def parse_uint32 : List Nat → Option (Nat × List Nat)
  | b0 :: b1 :: b2 :: b3 :: rest =>
      some (((b0 * 256 + b1) * 256 + b2) * 256 + b3, rest)
  | _ => none

/-- The VERSION packet `sftp_init` assembles (`sftpserver.c` lines
158-259), as a function of the newly activated table `p`, the
`reverse_symlink` flag and the `VERSION` string. -/
def versionPacket (p : sftpprotocol) (rsym : Bool) (vstr : String) :
    List WireItem :=
  [ WireItem.u8 SSH_FXP_VERSION, WireItem.u32 p.version ]
  ++ (if p.version ≥ 4 then
       [ WireItem.str "newline", WireItem.str "\n" ]
      else [])
  ++ (if p.version = 5 then
       [ WireItem.str "supported",
         WireItem.sub
           ([ WireItem.u32 initAttrMask,
              WireItem.u32 0,
              WireItem.u32 initOpenFlagsV5,
              WireItem.u32 0xFFFFFFFF,
              WireItem.u32 0 ]
            ++ p.extensions.map WireItem.str) ]
      else [])
  ++ (if p.version ≥ 6 then
       [ WireItem.str "supported2",
         WireItem.sub
           ([ WireItem.u32 initAttrMask,
              WireItem.u32 0,
              WireItem.u32 initOpenFlagsV6,
              WireItem.u32 0xFFFFFFFF,
              WireItem.u32 0,
              WireItem.u16 0,
              WireItem.u16 0,
              WireItem.u32 0,
              WireItem.u32 p.extensions.length ]
            ++ p.extensions.map WireItem.str),
         WireItem.str "versions",
         WireItem.str "3,4,5,6" ]
      else [])
  ++ [ WireItem.str "vendor-id",
       WireItem.sub
         [ WireItem.str "Green End",
           WireItem.str "Green End SFTP Server",
           WireItem.str vstr,
           WireItem.u64 0 ],
       WireItem.str "symlink-order@rjk.greenend.org.uk",
       WireItem.str (if rsym then "targetpath-linkpath"
                     else "linkpath-targetpath") ]
  ++ (if p.version ≥ 6 then
       [ WireItem.str "link-order@rjk.greenend.org.uk",
         WireItem.str "linkpath-targetpath" ]
      else [])

/-- Translation of `sftp_init` (`sftpserver.c` lines 130-268).  `rest` is
the job's payload after the type byte (INIT carries no id field).
Returns the new globals, the handler result, and the packets the handler
itself emitted (the VERSION response, on success). -/
def sftp_init (cfg : ServerConfig) (st : ServerState) (rest : List Nat) :
    ServerState × HResult × List (List WireItem) :=
  if st.protocol ≠ PVer.preinit then
    (st, HResult.status SSH_FX_FAILURE, [])
  else
    match parse_uint32 rest with
    | none => (st, HResult.status SSH_FX_BAD_MESSAGE, [])
    | some (version, _) =>
      match version with
      | 0 | 1 | 2 => (st, HResult.status SSH_FX_OP_UNSUPPORTED, [])
      | v =>
        let st :=
          if v = 3 then
            { st with protocol := PVer.v3,
                      reverse_symlink :=
                        if cfg.reverseCompiled then true
                        else st.reverse_symlink }
          else if v = 4 then { st with protocol := PVer.v4 }
          else if v = 5 then { st with protocol := PVer.v5 }
          else { st with protocol := PVer.v6 }
        let pkt := versionPacket (cfg.table st.protocol) st.reverse_symlink
                     cfg.versionString
        let st :=
          { st with workqueue :=
              if (cfg.table st.protocol).version < 6 then true
              else st.workqueue }
        (st, HResult.responded, [pkt])

/-- One probe of the binary-search loop of `process_sftpjob`
(`sftpserver.c` lines 342-364), with explicit fuel so the definition is
structurally recursive.  `l` and `r` are the C `int` variables (`r` can
become -1). -/
def bsearchGo (cmds : List Nat) (ty : Nat) : Nat → Int → Int → Option Nat
  | 0, _, _ => none
  | fuel + 1, l, r =>
    if l ≤ r then
      let m : Int := (l + r) / 2
      let mtype := cmds.getD m.toNat 0
      if ty < mtype then bsearchGo cmds ty fuel l (m - 1)
      else if mtype < ty then bsearchGo cmds ty fuel (m + 1) r
      else some m.toNat
    else none

/-- The binary search over the active table's command array: `l` starts
at 0 and `r` at `ncommands - 1`.  The interval shrinks at every probe,
so `cmds.length + 1` units of fuel always suffice. -/
def bsearch (cmds : List Nat) (ty : Nat) : Option Nat :=
  bsearchGo cmds ty (cmds.length + 1) 0 ((cmds.length : Int) - 1)

/-- The late work-queue creation at the `done` label of `process_sftpjob`
(`sftpserver.c` lines 371-377): if the job's type was not INIT and no
work queue exists, create it. -/
def doneStep (ty : Nat) (st : ServerState) : ServerState :=
  if ty ≠ SSH_FXP_INIT ∧ st.workqueue = false then
    { st with workqueue := true }
  else st

/-- Translation of `process_sftpjob` (`sftpserver.c` lines 317-379):
empty-payload check, type byte, id field for non-INIT types, binary
search of the active table, handler invocation, status response, and
the late work-queue creation at `done`.  Returns the new globals and the
response packets emitted on the engine's own paths (the packets a
non-INIT handler emits itself are outside the excerpt and not
modelled). -/
def dispatchJob (cfg : ServerConfig) (st : ServerState) (ty id : Nat)
    (rest : List Nat) : ServerState × List (List WireItem) :=
  match bsearch (cfg.table st.protocol).commands ty with
  | none =>
    (doneStep ty st,
     [send_status (cfg.table st.protocol).maxstatus cfg.strerror
        cfg.errno id SSH_FX_OP_UNSUPPORTED none])
  | some _ =>
    let (st, result, pkts) :=
      if ty = SSH_FXP_INIT then sftp_init cfg st rest
      else (st, cfg.handler st.protocol ty, [])
    match result with
    | HResult.responded => (doneStep ty st, pkts)
    | HResult.status s =>
      (doneStep ty st,
       pkts ++ [send_status (cfg.table st.protocol).maxstatus
                  cfg.strerror cfg.errno id s none])

def process_sftpjob (cfg : ServerConfig) (st : ServerState)
    (data : List Nat) : ServerState × List (List WireItem) :=
  match data with
  | [] =>
    -- job->id is still 0 and type is still 0 when the payload is empty
    (doneStep 0 st,
     [send_status (cfg.table st.protocol).maxstatus cfg.strerror cfg.errno
        0 SSH_FX_BAD_MESSAGE (some "empty request")])
  | ty :: rest =>
    match (if ty ≠ SSH_FXP_INIT then parse_uint32 rest
           else some (0, rest) : Option (Nat × List Nat)) with
    | none =>
      (doneStep ty st,
       [send_status (cfg.table st.protocol).maxstatus cfg.strerror cfg.errno
          0 SSH_FX_BAD_MESSAGE (some "missing ID field")])
    | some (id, rest) => dispatchJob cfg st ty id rest

/-! ## Request framer and main loop (`sftp_service`, `sftpserver.c`
lines 592-630)

`do_read` lives in utils.c, outside the excerpt.  Modelled from the
spec: it delivers exactly the requested number of bytes; a clean EOF
before the first byte of the 4-byte length makes it report EOF (ending
the loop), while EOF part-way through a read — and in particular
anywhere inside the `job->len` body bytes — is "no partial delivery
tolerated; short read is fatal for the connection". -/

/-- How the connection ends: clean EOF at a packet boundary, the
`fatal("zero length job")` of line 605, or the truncated-read fatal of
lines 607-610. -/
inductive SvcEnd : Type where
  | graceful
  | fatalZeroLength
  | fatalTruncated
deriving DecidableEq, Repr

/-- One iteration of the framer: classify the head of the input stream. -/
inductive FrameStep : Type where
  | stop (e : SvcEnd)
  | frame (body : List Nat) (rest : List Nat)

/-- Read one length-prefixed packet off the input byte stream. -/
def readFrame (input : List Nat) : FrameStep :=
  match input with
  | [] => FrameStep.stop SvcEnd.graceful
  | _ =>
    match parse_uint32 input with
    | none => FrameStep.stop SvcEnd.fatalTruncated
    | some (len, rest) =>
      if len = 0 then FrameStep.stop SvcEnd.fatalZeroLength
      else if rest.length < len then FrameStep.stop SvcEnd.fatalTruncated
      else FrameStep.frame (rest.take len) (rest.drop len)

/-- Record of one job the loop handled: its payload, whether it ran
inline on the reader thread (no work queue existed when it was
dispatched), and the engine-emitted response packets. -/
structure JobRecord : Type where
  body : List Nat
  inlineRun : Bool
  packets : List (List WireItem)

/-- The `sftp_service` read loop with explicit fuel (each frame consumes
at least five bytes of input, so `input.length + 1` always suffices).
Jobs are processed in arrival order; `inlineRun` records whether the job
ran on the reader thread (`workqueue == 0` at dispatch time,
`sftpserver.c` lines 619-625). -/
def sftp_service_go (cfg : ServerConfig) :
    Nat → ServerState → List Nat → ServerState × List JobRecord × SvcEnd
  | 0, st, _ => (st, [], SvcEnd.graceful)
  | fuel + 1, st, input =>
    match readFrame input with
    | FrameStep.stop e => (st, [], e)
    | FrameStep.frame body rest =>
      let inl := ! st.workqueue
      let (st', pkts) := process_sftpjob cfg st body
      let (st'', recs, e) := sftp_service_go cfg fuel st' rest
      (st'', { body := body, inlineRun := inl, packets := pkts } :: recs, e)

/-- Translation of `sftp_service` on a whole input stream. -/
def sftp_service (cfg : ServerConfig) (st : ServerState)
    (input : List Nat) : ServerState × List JobRecord × SvcEnd :=
  sftp_service_go cfg (input.length + 1) st input

/-! ## Sample instantiation

A concrete `ServerConfig` used by the witness theorems.  The versioned
tables live in v3.c..v6.c, outside the excerpt; the sample gives them
the version numbers and the v3 `maxstatus` the spec states, and minimal
command arrays.  No claim-deciding theorem depends on the sample's
contents beyond what its hypotheses check of it. -/

def sampleTables : PVer → sftpprotocol
  | PVer.preinit => sftppreinit
  | PVer.v3 =>
    { commands := [SSH_FXP_INIT], version := 3,
      maxstatus := SSH_FX_OP_UNSUPPORTED, extensions := [] }
  | PVer.v4 =>
    { commands := [SSH_FXP_INIT], version := 4,
      maxstatus := SSH_FX_NO_MEDIA, extensions := [] }
  | PVer.v5 =>
    { commands := [SSH_FXP_INIT], version := 5,
      maxstatus := SSH_FX_LOCK_CONFLICT, extensions := ["text-seek"] }
  | PVer.v6 =>
    { commands := [SSH_FXP_INIT], version := 6,
      maxstatus := SSH_FX_NO_MATCHING_BYTE_RANGE_LOCK,
      extensions := ["text-seek"] }

def sampleConfig : ServerConfig :=
  { v3tab := sampleTables PVer.v3,
    v4tab := sampleTables PVer.v4,
    v5tab := sampleTables PVer.v5,
    v6tab := sampleTables PVer.v6,
    versionString := "1",
    reverseCompiled := false,
    strerror := fun _ => "sample error",
    errno := OSErr.noerror,
    handler := fun _ _ => HResult.responded }

/-! ## Theorems -/

/-- The fixed message table never yields an empty message. -/
lemma status_to_string_ne_empty (s : Nat) : status_to_string s ≠ "" := by
  unfold status_to_string
  split <;> decide

/-- The status code actually placed in a STATUS packet: the handler (or
errno-translated) status, coerced to `SSH_FX_FAILURE` when above
`maxstatus`. -/
lemma send_status_code (maxstatus : Nat) (strerror : OSErr → String)
    (errno : OSErr) (id status : Nat) (msg : Option String) :
    ∃ s₀, (send_status maxstatus strerror errno id status msg).get? 2 =
        some (WireItem.u32 (if s₀ > maxstatus then SSH_FX_FAILURE else s₀)) := by
  unfold send_status send_errno_status send_status_body
  split
  · exact ⟨errnoStatus errno, rfl⟩
  · exact ⟨status, rfl⟩

/-- Claim C3: every outbound STATUS response carries a code at most the
active table's `maxstatus` (given that `SSH_FX_FAILURE` itself is legal
in every version, as it is in all five tables), because a
handler-returned status above `maxstatus` is replaced by
`SSH_FX_FAILURE` before emission. -/
theorem sftp_c3_status_capped (maxstatus : Nat) (strerror : OSErr → String)
    (errno : OSErr) (id status : Nat) (msg : Option String)
    (h4 : SSH_FX_FAILURE ≤ maxstatus) :
    (∀ s, (send_status maxstatus strerror errno id status msg).get? 2 =
        some (WireItem.u32 s) → s ≤ maxstatus)
    ∧ (status ≠ UINT32_MINUS_ONE → maxstatus < status →
        (send_status maxstatus strerror errno id status msg).get? 2 =
          some (WireItem.u32 SSH_FX_FAILURE)) := by
  constructor
  · intro s hs
    obtain ⟨s₀, h₀⟩ := send_status_code maxstatus strerror errno id status msg
    rw [h₀] at hs
    have : (if s₀ > maxstatus then SSH_FX_FAILURE else s₀) = s := by
      have := Option.some.inj hs
      exact WireItem.u32.inj this
    subst this
    split
    · exact h4
    · omega
  · intro hne hgt
    unfold send_status send_status_body
    rw [if_neg hne, if_pos hgt]
    rfl

/-- Claim C3 witness: a v3 connection (`maxstatus = 8`) whose handler
returned status 11 is sent STATUS code `SSH_FX_FAILURE` = 4. -/
theorem sftp_c3_witness :
    (send_status 8 (fun _ => "strerror") OSErr.noerror 7 11 none).get? 2 =
      some (WireItem.u32 SSH_FX_FAILURE) :=
  (sftp_c3_status_capped 8 (fun _ => "strerror") OSErr.noerror 7 11 none
    (by decide)).2 (by decide) (by decide)

/-- Claim C6: every STATUS response has exactly the fields type byte
`SSH_FXP_STATUS`, request id, status code, message, language, with the
language always `"en"`; and when the handler supplied no message (and
did not ask for the errno translation, which supplies `strerror`'s
text), the message is `status_to_string` of the status code, which is
never the empty string. -/
theorem sftp_c6_status_fields (maxstatus : Nat) (strerror : OSErr → String)
    (errno : OSErr) (id status : Nat) (msg : Option String) :
    (∃ s m, send_status maxstatus strerror errno id status msg =
      [ WireItem.u8 SSH_FXP_STATUS, WireItem.u32 id, WireItem.u32 s,
        WireItem.str m, WireItem.str "en" ])
    ∧ (status ≠ UINT32_MINUS_ONE → msg = none →
        (send_status maxstatus strerror errno id status msg).get? 3 =
          some (WireItem.str (status_to_string status))
        ∧ status_to_string status ≠ "") := by
  constructor
  · unfold send_status send_errno_status send_status_body
    split
    · exact ⟨_, _, rfl⟩
    · exact ⟨_, _, rfl⟩
  · intro hne hmsg
    subst hmsg
    unfold send_status send_status_body
    rw [if_neg hne]
    exact ⟨rfl, status_to_string_ne_empty status⟩

/-- Claim C6 witness: concrete instantiation (status 9 on a v3-style
table, no handler message): all five fields in order, message from the
fixed table, non-empty. -/
theorem sftp_c6_witness :
    (send_status 8 (fun _ => "strerror") OSErr.noerror 42 9 none).get? 3 =
      some (WireItem.str (status_to_string 9))
    ∧ status_to_string 9 ≠ "" :=
  (sftp_c6_status_fields 8 (fun _ => "strerror") OSErr.noerror 42 9 none).2
    (by decide) rfl

/-- Claim C7: the errno-to-status table maps each named OS error to its
SFTP status, every other OS error to `SSH_FX_FAILURE`, and the
translator is invoked exactly when a handler returns the all-ones
sentinel status. -/
theorem sftp_c7_errno_translation (maxstatus : Nat)
    (strerror : OSErr → String) (id : Nat) (e : OSErr)
    (msg : Option String) :
    errnoStatus OSErr.EPERM = SSH_FX_PERMISSION_DENIED
    ∧ errnoStatus OSErr.EACCES = SSH_FX_PERMISSION_DENIED
    ∧ errnoStatus OSErr.ENOENT = SSH_FX_NO_SUCH_FILE
    ∧ errnoStatus OSErr.EIO = SSH_FX_FILE_CORRUPT
    ∧ errnoStatus OSErr.ENOSPC = SSH_FX_NO_SPACE_ON_FILESYSTEM
    ∧ errnoStatus OSErr.ENOTDIR = SSH_FX_NOT_A_DIRECTORY
    ∧ errnoStatus OSErr.EISDIR = SSH_FX_FILE_IS_A_DIRECTORY
    ∧ errnoStatus OSErr.EEXIST = SSH_FX_FILE_ALREADY_EXISTS
    ∧ errnoStatus OSErr.EROFS = SSH_FX_WRITE_PROTECT
    ∧ errnoStatus OSErr.ELOOP = SSH_FX_LINK_LOOP
    ∧ errnoStatus OSErr.ENAMETOOLONG = SSH_FX_INVALID_FILENAME
    ∧ errnoStatus OSErr.ENOTEMPTY = SSH_FX_DIR_NOT_EMPTY
    ∧ errnoStatus OSErr.EDQUOT = SSH_FX_QUOTA_EXCEEDED
    ∧ (∀ n, errnoStatus (OSErr.other n) = SSH_FX_FAILURE)
    ∧ send_status maxstatus strerror e id UINT32_MINUS_ONE msg =
        send_errno_status maxstatus strerror id e := by
  refine ⟨rfl, rfl, rfl, rfl, rfl, rfl, rfl, rfl, rfl, rfl, rfl, rfl, rfl,
    ?_, ?_⟩
  · intro n
    simp [errnoStatus, errnotab, errnotab_scan]
  · unfold send_status
    rw [if_pos rfl]

/-- Monotonicity of a sorted command array under `getD`. -/
lemma sorted_getD_mono (cmds : List Nat) (hs : cmds.Sorted (· ≤ ·))
    {i j : Nat} (hij : i ≤ j) (hj : j < cmds.length) :
    cmds.getD i 0 ≤ cmds.getD j 0 := by
  rcases Nat.eq_or_lt_of_le hij with rfl | hlt
  · exact le_refl _
  · rw [List.getD_eq_getElem _ _ (lt_of_le_of_lt hij hj),
      List.getD_eq_getElem _ _ hj]
    exact hs.rel_get_of_lt hlt

/-- Soundness of the binary-search loop: a returned index is in range
and its entry is the searched type. -/
lemma bsearchGo_sound (cmds : List Nat) (ty : Nat) :
    ∀ fuel (l r : Int), 0 ≤ l → r < (cmds.length : Int) →
      ∀ i, bsearchGo cmds ty fuel l r = some i →
        i < cmds.length ∧ cmds.getD i 0 = ty := by
  intro fuel
  induction fuel with
  | zero => intro l r _ _ i h; exact absurd h (by simp [bsearchGo])
  | succ fuel ih =>
    intro l r hl hr i h
    rw [bsearchGo] at h
    by_cases hlr : l ≤ r
    · rw [if_pos hlr] at h
      have hm : 0 ≤ (l + r) / 2 ∧ (l + r) / 2 ≤ r := by omega
      by_cases h1 : ty < cmds.getD ((l + r) / 2).toNat 0
      · rw [if_pos h1] at h
        exact ih l ((l + r) / 2 - 1) hl (by omega) i h
      · rw [if_neg h1] at h
        by_cases h2 : cmds.getD ((l + r) / 2).toNat 0 < ty
        · rw [if_pos h2] at h
          exact ih ((l + r) / 2 + 1) r (by omega) hr i h
        · rw [if_neg h2] at h
          have hi : i = ((l + r) / 2).toNat := (Option.some.inj h).symm
          subst hi
          refine ⟨by omega, by omega⟩
    · rw [if_neg hlr] at h
      exact absurd h (by simp)

/-- Completeness of the binary-search loop: when the array is sorted,
the searched type occurs at an index inside `[l, r]`, and the fuel
covers the interval, the loop finds an entry. -/
lemma bsearchGo_complete (cmds : List Nat) (ty : Nat)
    (hs : cmds.Sorted (· ≤ ·)) :
    ∀ fuel (l r : Int) (j : Nat), (r + 1 - l).toNat ≤ fuel → 0 ≤ l →
      r < (cmds.length : Int) → j < cmds.length → cmds.getD j 0 = ty →
      l ≤ (j : Int) → (j : Int) ≤ r →
      (bsearchGo cmds ty fuel l r).isSome := by
  intro fuel
  induction fuel with
  | zero => intro l r j hfuel _ _ _ _ hlj hjr; omega
  | succ fuel ih =>
    intro l r j hfuel hl hr hj hjty hlj hjr
    rw [bsearchGo]
    have hlr : l ≤ r := le_trans hlj hjr
    rw [if_pos hlr]
    have hm : 0 ≤ (l + r) / 2 ∧ (l + r) / 2 ≤ r := by omega
    by_cases h1 : ty < cmds.getD ((l + r) / 2).toNat 0
    · rw [if_pos h1]
      have hjm : (j : Int) ≤ (l + r) / 2 - 1 := by
        by_contra hcon
        have hmj : ((l + r) / 2).toNat ≤ j := by omega
        have := sorted_getD_mono cmds hs hmj hj
        omega
      exact ih l ((l + r) / 2 - 1) j (by omega) hl (by omega) hj hjty hlj hjm
    · rw [if_neg h1]
      by_cases h2 : cmds.getD ((l + r) / 2).toNat 0 < ty
      · rw [if_pos h2]
        have hjm : (l + r) / 2 + 1 ≤ (j : Int) := by
          by_contra hcon
          have hmj : j ≤ ((l + r) / 2).toNat := by omega
          have := sorted_getD_mono cmds hs hmj (by omega)
          omega
        exact ih ((l + r) / 2 + 1) r j (by omega) (by omega) hr hj hjty hjm hjr
      · rw [if_neg h2]
        simp

/-- The dispatcher's binary search over a sorted command array misses
exactly when the type is absent from the array. -/
lemma bsearch_none_iff (cmds : List Nat) (ty : Nat)
    (hs : cmds.Sorted (· ≤ ·)) :
    bsearch cmds ty = none ↔ ty ∉ cmds := by
  constructor
  · intro hnone hmem
    obtain ⟨j, hj, hjty⟩ := List.mem_iff_getElem.1 hmem
    have hfind := bsearchGo_complete cmds ty hs (cmds.length + 1) 0
      ((cmds.length : Int) - 1) j (by omega) (by omega) (by omega) hj
      (by rw [List.getD_eq_getElem _ _ hj]; exact hjty) (by omega) (by omega)
    rw [bsearch] at hnone
    rw [hnone] at hfind
    exact absurd hfind (by simp)
  · intro hmem
    cases hfind : bsearch cmds ty with
    | none => rfl
    | some i =>
      obtain ⟨hi, hity⟩ := bsearchGo_sound cmds ty (cmds.length + 1) 0
        ((cmds.length : Int) - 1) (by omega) (by omega) i hfind
      rw [List.getD_eq_getElem _ _ hi] at hity
      exact absurd (hity ▸ List.getElem_mem hi) hmem

/-- The request id occupies position 1 of every STATUS packet. -/
lemma send_status_id (maxstatus : Nat) (strerror : OSErr → String)
    (errno : OSErr) (id status : Nat) (msg : Option String) :
    (send_status maxstatus strerror errno id status msg).get? 1 =
      some (WireItem.u32 id) := by
  unfold send_status send_errno_status send_status_body
  split <;> rfl

/-- The type byte of every STATUS packet is `SSH_FXP_STATUS`. -/
lemma send_status_type (maxstatus : Nat) (strerror : OSErr → String)
    (errno : OSErr) (id status : Nat) (msg : Option String) :
    (send_status maxstatus strerror errno id status msg).get? 0 =
      some (WireItem.u8 SSH_FXP_STATUS) := by
  unfold send_status send_errno_status send_status_body
  split <;> rfl

/-- A non-sentinel status within the version's range is emitted
untouched. -/
lemma send_status_code_of_le (maxstatus : Nat) (strerror : OSErr → String)
    (errno : OSErr) (id status : Nat) (msg : Option String)
    (hne : status ≠ UINT32_MINUS_ONE) (hle : status ≤ maxstatus) :
    (send_status maxstatus strerror errno id status msg).get? 2 =
      some (WireItem.u32 status) := by
  unfold send_status send_status_body
  rw [if_neg hne, if_neg (by omega)]
  rfl

/-- Claim C1: the INIT handler succeeds only while the active table is
the pre-init one — any INIT once a table has been negotiated returns
`SSH_FX_FAILURE` and leaves the table unchanged, so the table pointer
advances at most once — and maps the proposed version as: 0, 1, 2 reply
`SSH_FX_OP_UNSUPPORTED` with the table still pre-init; 3 activates the
v3 table (setting the reverse-symlink flag when compiled with
`REVERSE_SYMLINK`); 4 activates v4; 5 activates v5; everything from 6 up
activates v6. -/
theorem sftp_c1_init_negotiation (cfg : ServerConfig) (st : ServerState)
    (rest : List Nat) :
    (st.protocol ≠ PVer.preinit →
      sftp_init cfg st rest = (st, HResult.status SSH_FX_FAILURE, []))
    ∧ (st.protocol = PVer.preinit →
       ∀ v tail, parse_uint32 rest = some (v, tail) →
        (v ≤ 2 →
          sftp_init cfg st rest = (st, HResult.status SSH_FX_OP_UNSUPPORTED, []))
        ∧ (v = 3 → (sftp_init cfg st rest).1.protocol = PVer.v3
            ∧ (sftp_init cfg st rest).1.reverse_symlink =
                (cfg.reverseCompiled || st.reverse_symlink))
        ∧ (v = 4 → (sftp_init cfg st rest).1.protocol = PVer.v4)
        ∧ (v = 5 → (sftp_init cfg st rest).1.protocol = PVer.v5)
        ∧ (6 ≤ v → (sftp_init cfg st rest).1.protocol = PVer.v6)) := by
  constructor
  · intro h
    unfold sftp_init
    rw [if_pos h]
  · intro hpre v tail hparse
    unfold sftp_init
    rw [if_neg (by simp [hpre]), hparse]
    refine ⟨?_, ?_, ?_, ?_, ?_⟩
    · intro hv
      interval_cases v <;> rfl
    · rintro rfl
      exact ⟨rfl, by cases cfg.reverseCompiled <;> rfl⟩
    · rintro rfl
      rfl
    · rintro rfl
      rfl
    · intro hv
      obtain ⟨n, rfl⟩ : ∃ n, v = n + 6 := ⟨v - 6, by omega⟩
      rfl

/-- Claim C1 witness: on a fresh connection, INIT with version 6
activates the v6 table; INIT with version 2 is refused as unsupported;
and a second INIT on the v6 state fails with `SSH_FX_FAILURE`. -/
theorem sftp_c1_witness :
    (sftp_init sampleConfig initialState [0, 0, 0, 6]).1.protocol = PVer.v6
    ∧ sftp_init sampleConfig initialState [0, 0, 0, 2] =
        (initialState, HResult.status SSH_FX_OP_UNSUPPORTED, [])
    ∧ sftp_init sampleConfig
        { protocol := PVer.v6, reverse_symlink := false, workqueue := false }
        [0, 0, 0, 3] =
      ({ protocol := PVer.v6, reverse_symlink := false, workqueue := false },
        HResult.status SSH_FX_FAILURE, []) := by
  refine ⟨?_, ?_, ?_⟩
  · exact ((sftp_c1_init_negotiation sampleConfig initialState
      [0, 0, 0, 6]).2 rfl 6 [] rfl).2.2.2.2 (by decide)
  · exact ((sftp_c1_init_negotiation sampleConfig initialState
      [0, 0, 0, 2]).2 rfl 2 [] rfl).1 (by decide)
  · exact (sftp_c1_init_negotiation sampleConfig
      { protocol := PVer.v6, reverse_symlink := false, workqueue := false }
      [0, 0, 0, 3]).1 (by decide)

/-- Claim C9: the VERSION response advertises exactly the
version-dependent extensions.  For each possible negotiated version the
packet is, in full: the type byte and version; for version 4 and above
the pair "newline" = "\n"; for version 5 the "supported" block and for
version 6 the "supported2" block plus "versions" = "3,4,5,6", each block
carrying max-read-size 0; for every version the "vendor-id" block and
the "symlink-order@rjk.greenend.org.uk" extension valued
"targetpath-linkpath" or "linkpath-targetpath" per the reverse-symlink
flag; and for version 6 additionally
"link-order@rjk.greenend.org.uk" = "linkpath-targetpath". -/
theorem sftp_c9_version_packet (p : sftpprotocol) (rsym : Bool)
    (vstr : String) :
    (p.version = 3 → versionPacket p rsym vstr =
      [ WireItem.u8 SSH_FXP_VERSION, WireItem.u32 3,
        WireItem.str "vendor-id",
        WireItem.sub
          [ WireItem.str "Green End", WireItem.str "Green End SFTP Server",
            WireItem.str vstr, WireItem.u64 0 ],
        WireItem.str "symlink-order@rjk.greenend.org.uk",
        WireItem.str (if rsym then "targetpath-linkpath"
                      else "linkpath-targetpath") ])
    ∧ (p.version = 4 → versionPacket p rsym vstr =
      [ WireItem.u8 SSH_FXP_VERSION, WireItem.u32 4,
        WireItem.str "newline", WireItem.str "\n",
        WireItem.str "vendor-id",
        WireItem.sub
          [ WireItem.str "Green End", WireItem.str "Green End SFTP Server",
            WireItem.str vstr, WireItem.u64 0 ],
        WireItem.str "symlink-order@rjk.greenend.org.uk",
        WireItem.str (if rsym then "targetpath-linkpath"
                      else "linkpath-targetpath") ])
    ∧ (p.version = 5 → versionPacket p rsym vstr =
      [ WireItem.u8 SSH_FXP_VERSION, WireItem.u32 5,
        WireItem.str "newline", WireItem.str "\n",
        WireItem.str "supported",
        WireItem.sub
          ([ WireItem.u32 initAttrMask, WireItem.u32 0,
             WireItem.u32 initOpenFlagsV5, WireItem.u32 0xFFFFFFFF,
             WireItem.u32 0 ]
           ++ p.extensions.map WireItem.str),
        WireItem.str "vendor-id",
        WireItem.sub
          [ WireItem.str "Green End", WireItem.str "Green End SFTP Server",
            WireItem.str vstr, WireItem.u64 0 ],
        WireItem.str "symlink-order@rjk.greenend.org.uk",
        WireItem.str (if rsym then "targetpath-linkpath"
                      else "linkpath-targetpath") ])
    ∧ (p.version = 6 → versionPacket p rsym vstr =
      [ WireItem.u8 SSH_FXP_VERSION, WireItem.u32 6,
        WireItem.str "newline", WireItem.str "\n",
        WireItem.str "supported2",
        WireItem.sub
          ([ WireItem.u32 initAttrMask, WireItem.u32 0,
             WireItem.u32 initOpenFlagsV6, WireItem.u32 0xFFFFFFFF,
             WireItem.u32 0, WireItem.u16 0, WireItem.u16 0,
             WireItem.u32 0, WireItem.u32 p.extensions.length ]
           ++ p.extensions.map WireItem.str),
        WireItem.str "versions", WireItem.str "3,4,5,6",
        WireItem.str "vendor-id",
        WireItem.sub
          [ WireItem.str "Green End", WireItem.str "Green End SFTP Server",
            WireItem.str vstr, WireItem.u64 0 ],
        WireItem.str "symlink-order@rjk.greenend.org.uk",
        WireItem.str (if rsym then "targetpath-linkpath"
                      else "linkpath-targetpath"),
        WireItem.str "link-order@rjk.greenend.org.uk",
        WireItem.str "linkpath-targetpath" ]) := by
  obtain ⟨cmds, ver, maxst, exts⟩ := p
  refine ⟨?_, ?_, ?_, ?_⟩ <;> (intro h; subst h; rfl)

/-- Claim C9 witness: the v6 sample table with the reverse-symlink flag
clear yields the full v6 VERSION packet, including "supported2",
"versions" = "3,4,5,6", "symlink-order" = "linkpath-targetpath" and
"link-order" = "linkpath-targetpath". -/
theorem sftp_c9_witness :
    versionPacket (sampleTables PVer.v6) false "1" =
      [ WireItem.u8 SSH_FXP_VERSION, WireItem.u32 6,
        WireItem.str "newline", WireItem.str "\n",
        WireItem.str "supported2",
        WireItem.sub
          ([ WireItem.u32 initAttrMask, WireItem.u32 0,
             WireItem.u32 initOpenFlagsV6, WireItem.u32 0xFFFFFFFF,
             WireItem.u32 0, WireItem.u16 0, WireItem.u16 0,
             WireItem.u32 0, WireItem.u32 1 ]
           ++ [WireItem.str "text-seek"]),
        WireItem.str "versions", WireItem.str "3,4,5,6",
        WireItem.str "vendor-id",
        WireItem.sub
          [ WireItem.str "Green End", WireItem.str "Green End SFTP Server",
            WireItem.str "1", WireItem.u64 0 ],
        WireItem.str "symlink-order@rjk.greenend.org.uk",
        WireItem.str "linkpath-targetpath",
        WireItem.str "link-order@rjk.greenend.org.uk",
        WireItem.str "linkpath-targetpath" ] := by
  have h := (sftp_c9_version_packet (sampleTables PVer.v6) false "1").2.2.2 rfl
  rw [h]
  rfl

/-- Claim C4: the dispatch engine sends `SSH_FX_BAD_MESSAGE` for an
empty payload; for a non-INIT type whose 32-bit id fails to decode it
sends a STATUS with the decode-failure status (`SSH_FX_BAD_MESSAGE`)
and id 0; its binary search over the sorted command array misses
exactly when the type is absent; and on a miss it sends
`SSH_FX_OP_UNSUPPORTED` under the request's id. -/
theorem sftp_c4_dispatch (cfg : ServerConfig) (st : ServerState) :
    (SSH_FX_BAD_MESSAGE ≤ (cfg.table st.protocol).maxstatus →
      ∃ pkt, (process_sftpjob cfg st []).2 = [pkt]
        ∧ pkt.get? 0 = some (WireItem.u8 SSH_FXP_STATUS)
        ∧ pkt.get? 2 = some (WireItem.u32 SSH_FX_BAD_MESSAGE))
    ∧ (∀ ty rest, ty ≠ SSH_FXP_INIT → parse_uint32 rest = none →
        SSH_FX_BAD_MESSAGE ≤ (cfg.table st.protocol).maxstatus →
        ∃ pkt, (process_sftpjob cfg st (ty :: rest)).2 = [pkt]
          ∧ pkt.get? 0 = some (WireItem.u8 SSH_FXP_STATUS)
          ∧ pkt.get? 1 = some (WireItem.u32 0)
          ∧ pkt.get? 2 = some (WireItem.u32 SSH_FX_BAD_MESSAGE))
    ∧ ((cfg.table st.protocol).commands.Sorted (· ≤ ·) → ∀ ty,
        (bsearch (cfg.table st.protocol).commands ty = none ↔
          ty ∉ (cfg.table st.protocol).commands))
    ∧ (∀ ty rest id rest', ty ≠ SSH_FXP_INIT →
        parse_uint32 rest = some (id, rest') →
        (cfg.table st.protocol).commands.Sorted (· ≤ ·) →
        ty ∉ (cfg.table st.protocol).commands →
        SSH_FX_OP_UNSUPPORTED ≤ (cfg.table st.protocol).maxstatus →
        ∃ pkt, (process_sftpjob cfg st (ty :: rest)).2 = [pkt]
          ∧ pkt.get? 0 = some (WireItem.u8 SSH_FXP_STATUS)
          ∧ pkt.get? 1 = some (WireItem.u32 id)
          ∧ pkt.get? 2 = some (WireItem.u32 SSH_FX_OP_UNSUPPORTED)) := by
  refine ⟨?_, ?_, ?_, ?_⟩
  · intro h5
    exact ⟨_, rfl,
      send_status_type _ cfg.strerror cfg.errno _ _ _,
      send_status_code_of_le _ cfg.strerror cfg.errno _ _ _ (by decide) h5⟩
  · intro ty rest hty hparse h5
    have hout : (process_sftpjob cfg st (ty :: rest)).2 =
        [send_status (cfg.table st.protocol).maxstatus cfg.strerror cfg.errno
          0 SSH_FX_BAD_MESSAGE (some "missing ID field")] := by
      simp only [process_sftpjob]
      rw [if_pos hty, hparse]
    exact ⟨_, hout,
      send_status_type _ cfg.strerror cfg.errno _ _ _,
      send_status_id _ cfg.strerror cfg.errno _ _ _,
      send_status_code_of_le _ cfg.strerror cfg.errno _ _ _ (by decide) h5⟩
  · intro hs ty
    exact bsearch_none_iff _ ty hs
  · intro ty rest id rest' hty hparse hs hmem h8
    have hout : (process_sftpjob cfg st (ty :: rest)).2 =
        [send_status (cfg.table st.protocol).maxstatus cfg.strerror cfg.errno
          id SSH_FX_OP_UNSUPPORTED none] := by
      simp only [process_sftpjob]
      rw [if_pos hty, hparse]
      show (dispatchJob cfg st ty id rest').2 = _
      simp only [dispatchJob]
      rw [(bsearch_none_iff _ ty hs).2 hmem]
    exact ⟨_, hout,
      send_status_type _ cfg.strerror cfg.errno _ _ _,
      send_status_id _ cfg.strerror cfg.errno _ _ _,
      send_status_code_of_le _ cfg.strerror cfg.errno _ _ _ (by decide) h8⟩

/-- Claim C4 witness: on a fresh (pre-init) connection, a packet of
type 99 with id 7 misses the pre-init table's command array and is
answered by a single STATUS packet carrying id 7 and
`SSH_FX_OP_UNSUPPORTED`. -/
theorem sftp_c4_witness :
    (process_sftpjob sampleConfig initialState [99, 0, 0, 0, 7]).2.length = 1
    ∧ ((process_sftpjob sampleConfig initialState
        [99, 0, 0, 0, 7]).2.getD 0 []).get? 1 = some (WireItem.u32 7)
    ∧ ((process_sftpjob sampleConfig initialState
        [99, 0, 0, 0, 7]).2.getD 0 []).get? 2 =
          some (WireItem.u32 SSH_FX_OP_UNSUPPORTED) := by
  obtain ⟨pkt, hout, ht, hid, hcode⟩ :=
    (sftp_c4_dispatch sampleConfig initialState).2.2.2 99 [0, 0, 0, 7] 7 []
      (by decide) rfl (by decide) (by decide) (by decide)
  rw [hout]
  exact ⟨rfl, hid, hcode⟩

/-- Claim C5: a STATUS response the dispatcher emits for a non-INIT
request whose 32-bit id decodes successfully carries exactly that id;
when the id field is missing or fails to decode (including the empty
payload, whose job keeps id 0), the STATUS response carries id 0. -/
theorem sftp_c5_id_echo (cfg : ServerConfig) (st : ServerState) :
    (∀ ty rest id rest', ty ≠ SSH_FXP_INIT →
      parse_uint32 rest = some (id, rest') →
      ∀ pkt ∈ (process_sftpjob cfg st (ty :: rest)).2,
        pkt.get? 0 = some (WireItem.u8 SSH_FXP_STATUS) →
        pkt.get? 1 = some (WireItem.u32 id))
    ∧ (∀ ty rest, ty ≠ SSH_FXP_INIT → parse_uint32 rest = none →
        ∀ pkt ∈ (process_sftpjob cfg st (ty :: rest)).2,
          pkt.get? 1 = some (WireItem.u32 0))
    ∧ (∀ pkt ∈ (process_sftpjob cfg st []).2,
        pkt.get? 1 = some (WireItem.u32 0)) := by
  refine ⟨?_, ?_, ?_⟩
  · intro ty rest id rest' hty hparse pkt hmem htype
    have hout := hmem
    simp only [process_sftpjob] at hout
    rw [if_pos hty, hparse] at hout
    have hout2 : pkt ∈ (dispatchJob cfg st ty id rest').2 := hout
    simp only [dispatchJob] at hout2
    rcases hsearch : bsearch (cfg.table st.protocol).commands ty with _ | m
    · rw [hsearch] at hout2
      have hout' : pkt ∈
          [send_status (cfg.table st.protocol).maxstatus cfg.strerror
            cfg.errno id SSH_FX_OP_UNSUPPORTED none] := hout2
      rw [List.mem_singleton.1 hout']
      exact send_status_id _ cfg.strerror cfg.errno _ _ _
    · rw [hsearch] at hout2
      rw [if_neg hty] at hout2
      rcases hh : cfg.handler st.protocol ty with _ | s
      · rw [hh] at hout2
        have hout' : pkt ∈ ([] : List (List WireItem)) := hout2
        exact absurd hout' (List.not_mem_nil pkt)
      · rw [hh] at hout2
        have hout' : pkt ∈
            [send_status (cfg.table st.protocol).maxstatus cfg.strerror
              cfg.errno id s none] := hout2
        rw [List.mem_singleton.1 hout']
        exact send_status_id _ cfg.strerror cfg.errno _ _ _
  · intro ty rest hty hparse pkt hmem
    have hout := hmem
    simp only [process_sftpjob] at hout
    rw [if_pos hty, hparse] at hout
    have hout' : pkt ∈
        [send_status (cfg.table st.protocol).maxstatus cfg.strerror
          cfg.errno 0 SSH_FX_BAD_MESSAGE (some "missing ID field")] := hout
    rw [List.mem_singleton.1 hout']
    exact send_status_id _ cfg.strerror cfg.errno _ _ _
  · intro pkt hmem
    have hout' : pkt ∈
        [send_status (cfg.table st.protocol).maxstatus cfg.strerror
          cfg.errno 0 SSH_FX_BAD_MESSAGE (some "empty request")] := hmem
    rw [List.mem_singleton.1 hout']
    exact send_status_id _ cfg.strerror cfg.errno _ _ _

/-- Claim C5 witness: the STATUS answering an unsupported type-99
request with id 7 echoes id 7, and the STATUS answering a type-99
request with a truncated id field carries id 0. -/
theorem sftp_c5_witness :
    ((process_sftpjob sampleConfig initialState
        [99, 0, 0, 0, 7]).2.getD 0 []).get? 1 = some (WireItem.u32 7)
    ∧ ((process_sftpjob sampleConfig initialState
        [99, 0, 0]).2.getD 0 []).get? 1 = some (WireItem.u32 0) := by
  have h1 : (process_sftpjob sampleConfig initialState [99, 0, 0, 0, 7]).2 =
      [[ WireItem.u8 101, WireItem.u32 7, WireItem.u32 8,
         WireItem.str "operation not supported", WireItem.str "en" ]] := rfl
  have h2 : (process_sftpjob sampleConfig initialState [99, 0, 0]).2 =
      [[ WireItem.u8 101, WireItem.u32 0, WireItem.u32 5,
         WireItem.str "missing ID field", WireItem.str "en" ]] := rfl
  constructor
  · have hm := (sftp_c5_id_echo sampleConfig initialState).1 99 [0, 0, 0, 7]
      7 [] (by decide) rfl
      [ WireItem.u8 101, WireItem.u32 7, WireItem.u32 8,
        WireItem.str "operation not supported", WireItem.str "en" ]
      (by rw [h1]; exact List.mem_singleton.2 rfl) rfl
    rw [h1]
    exact hm
  · have hm := (sftp_c5_id_echo sampleConfig initialState).2.1 99 [0, 0]
      (by decide) rfl
      [ WireItem.u8 101, WireItem.u32 0, WireItem.u32 5,
        WireItem.str "missing ID field", WireItem.str "en" ]
      (by rw [h2]; exact List.mem_singleton.2 rfl)
    rw [h2]
    exact hm

/-- Claim C10: the default message is chosen before the maxstatus
coercion, so an out-of-range status with no handler message is emitted
as code `SSH_FX_FAILURE` but with the message of the original status. -/
theorem sftp_c10_message_before_coercion (maxstatus id status : Nat)
    (strerror : OSErr → String) (errno : OSErr)
    (hne : status ≠ UINT32_MINUS_ONE) (hgt : maxstatus < status) :
    send_status maxstatus strerror errno id status none =
      [ WireItem.u8 SSH_FXP_STATUS, WireItem.u32 id,
        WireItem.u32 SSH_FX_FAILURE,
        WireItem.str (status_to_string status), WireItem.str "en" ] := by
  unfold send_status send_status_body
  rw [if_neg hne, if_pos hgt]

/-- Claim C10 witness: handler status 11 on a v3 connection
(`maxstatus = 8`), no handler message: the packet carries code 4 yet the
message "file already exists" of status 11, not "operation failed". -/
theorem sftp_c10_witness :
    send_status 8 (fun _ => "strerror") OSErr.noerror 5 11 none =
      [ WireItem.u8 SSH_FXP_STATUS, WireItem.u32 5, WireItem.u32 4,
        WireItem.str "file already exists", WireItem.str "en" ]
    ∧ status_to_string 11 ≠ status_to_string 4 := by
  constructor
  · have h := sftp_c10_message_before_coercion 8 5 11
      (fun _ => "strerror") OSErr.noerror (by decide) (by decide)
    rw [h]
    rfl
  · decide

/-- Claim C8: the framer treats a declared packet length of zero, and a
truncated packet body, as fatal for the connection — the loop ends with
no job processed for that packet, hence no response to it — while a
clean EOF at a packet boundary ends the loop gracefully. -/
theorem sftp_c8_framing (cfg : ServerConfig) (st : ServerState) :
    sftp_service cfg st [] = (st, [], SvcEnd.graceful)
    ∧ (∀ b0 b1 b2 b3 tail len rest,
        parse_uint32 (b0 :: b1 :: b2 :: b3 :: tail) = some (len, rest) →
        len = 0 →
        sftp_service cfg st (b0 :: b1 :: b2 :: b3 :: tail) =
          (st, [], SvcEnd.fatalZeroLength))
    ∧ (∀ b0 b1 b2 b3 tail len rest,
        parse_uint32 (b0 :: b1 :: b2 :: b3 :: tail) = some (len, rest) →
        len ≠ 0 → rest.length < len →
        sftp_service cfg st (b0 :: b1 :: b2 :: b3 :: tail) =
          (st, [], SvcEnd.fatalTruncated)) := by
  refine ⟨rfl, ?_, ?_⟩
  · intro b0 b1 b2 b3 tail len rest hparse hlen
    subst hlen
    have hframe : readFrame (b0 :: b1 :: b2 :: b3 :: tail) =
        FrameStep.stop SvcEnd.fatalZeroLength := by
      unfold readFrame
      rw [hparse]
      rfl
    unfold sftp_service
    simp only [List.length_cons, sftp_service_go]
    rw [hframe]
  · intro b0 b1 b2 b3 tail len rest hparse hlen hshort
    have hframe : readFrame (b0 :: b1 :: b2 :: b3 :: tail) =
        FrameStep.stop SvcEnd.fatalTruncated := by
      unfold readFrame
      rw [hparse]
      show (if len = 0 then FrameStep.stop SvcEnd.fatalZeroLength
            else if rest.length < len then FrameStep.stop SvcEnd.fatalTruncated
            else FrameStep.frame (rest.take len) (rest.drop len)) = _
      rw [if_neg hlen, if_pos hshort]
    unfold sftp_service
    simp only [List.length_cons, sftp_service_go]
    rw [hframe]

/-- Claim C8 witness: a zero-length header is fatal with no job
processed; a header announcing five bytes followed by only two is fatal
with no job processed; the empty stream is a graceful shutdown. -/
theorem sftp_c8_witness :
    sftp_service sampleConfig initialState [0, 0, 0, 0] =
      (initialState, [], SvcEnd.fatalZeroLength)
    ∧ sftp_service sampleConfig initialState [0, 0, 0, 5, 1, 2] =
      (initialState, [], SvcEnd.fatalTruncated)
    ∧ sftp_service sampleConfig initialState [] =
      (initialState, [], SvcEnd.graceful) :=
  ⟨(sftp_c8_framing sampleConfig initialState).2.1 0 0 0 0 [] 0 [] rfl rfl,
   (sftp_c8_framing sampleConfig initialState).2.2 0 0 0 5 [1, 2] 5 [1, 2]
     rfl (by decide) (by decide),
   (sftp_c8_framing sampleConfig initialState).1⟩

/-- Claim C2 (failing-input evaluation): the claim states that while the
active table is pre-init no worker pool exists and every job, including
unknown-type requests answered with `SSH_FX_OP_UNSUPPORTED`, runs inline
with the pool still absent when its processing completes.  The code
violates this: the late-creation check at the `done` label of
`process_sftpjob` (`sftpserver.c` lines 371-377) tests only
`type != SSH_FXP_INIT && workqueue == 0`, not whether INIT ever
succeeded.  Feeding a fresh connection a first packet of type 17 (not
INIT, id 1) and a second of type 18 (id 2): both are answered
`SSH_FX_OP_UNSUPPORTED`, yet after the first completes the worker pool
exists while the active table is still pre-init, and the second job is
already dispatched to the pool (not inline) — contradicting the code's
own comment ("This must have been the first job after initializing to
version 6") and the claim.  The run only exercises the pre-init table,
which is fixed by the source. -/
theorem sftp_c2_pool_created_during_preinit :
    sftp_service sampleConfig initialState
      [0, 0, 0, 5, 17, 0, 0, 0, 1, 0, 0, 0, 5, 18, 0, 0, 0, 2] =
    ({ protocol := PVer.preinit, reverse_symlink := false, workqueue := true },
     [ { body := [17, 0, 0, 0, 1], inlineRun := true,
         packets := [[ WireItem.u8 101, WireItem.u32 1, WireItem.u32 8,
           WireItem.str "operation not supported", WireItem.str "en" ]] },
       { body := [18, 0, 0, 0, 2], inlineRun := false,
         packets := [[ WireItem.u8 101, WireItem.u32 2, WireItem.u32 8,
           WireItem.str "operation not supported", WireItem.str "en" ]] } ],
     SvcEnd.graceful) := rfl

end Sftp
